import Mathlib

/-!
Verification development for the CFDP engine core of the tmtccmd repository:
the Class-1 Source Handler FSM (`tmtccmd/cfdp/handler/source.py`) and
Destination Handler FSM (`tmtccmd/cfdp/handler/dest.py`), shallowly embedded
in Lean.  Python `bytes` are `List Nat`, machine integers are `Nat`,
exceptions are `Except` errors, the `while` loop of the CRC procedure is
driven by explicit fuel, and the external CRC digest of the `crcmod` library
is an abstract function parameter (no claim depends on digest values).
-/

namespace Tmtccmd

/-- Fixed-width unsigned byte field (spacepackets `UnsignedByteField`):
a declared byte length and the carried value. -/
structure UnsignedByteField where
  byte_len : Nat
  value : Nat
deriving DecidableEq, Repr

/-- spacepackets `TransmissionModes`. -/
inductive TransmissionModes where
  | ACKNOWLEDGED
  | UNACKNOWLEDGED
deriving DecidableEq, Repr

/-- spacepackets `ChecksumTypes` (the subset the engine names). -/
inductive ChecksumTypes where
  | NULL_CHECKSUM
  | MODULAR
  | CRC_32
  | CRC_32C
deriving DecidableEq, Repr

/-- spacepackets `Direction`. -/
inductive Direction where
  | TOWARDS_RECEIVER
  | TOWARDS_SENDER
deriving DecidableEq, Repr

/-- spacepackets `ConditionCode` (subset used by the handlers). -/
inductive ConditionCode where
  | NO_ERROR
  | FILE_CHECKSUM_FAILURE
  | CHECK_LIMIT_REACHED
deriving DecidableEq, Repr

/-- spacepackets `DeliveryCode`. -/
inductive DeliveryCode where
  | DATA_COMPLETE
  | DATA_INCOMPLETE
deriving DecidableEq, Repr

/-- spacepackets `FileDeliveryStatus`. -/
inductive FileDeliveryStatus where
  | DISCARDED_DELIBERATELY
  | FILE_RETAINED
  | FILE_STATUS_UNREPORTED
deriving DecidableEq, Repr

/-- spacepackets `DirectiveType` (subset used by the handlers). -/
inductive DirectiveType where
  | EOF_PDU
  | FINISHED_PDU
  | ACK_PDU
  | METADATA_PDU
  | NAK_PDU
deriving DecidableEq, Repr

/-- spacepackets `NULL_CHECKSUM_U32`: the 4-byte all-zero checksum. -/
def NULL_CHECKSUM_U32 : List Nat := [0, 0, 0, 0]

/-- spacepackets `PduConfig`: shared header fields of all PDUs of a
transaction. -/
structure PduConfig where
  source_entity_id : UnsignedByteField
  dest_entity_id : UnsignedByteField
  transaction_seq_num : UnsignedByteField
  trans_mode : TransmissionModes
  crc_flag : Bool
  direction : Direction
  seg_ctrl : Bool
deriving DecidableEq, Repr

/-- spacepackets `PduConfig.empty()`: all byte fields zeroed, default flags. -/
def PduConfig.empty : PduConfig :=
  { source_entity_id := ⟨1, 0⟩
    dest_entity_id := ⟨1, 0⟩
    transaction_seq_num := ⟨1, 0⟩
    trans_mode := TransmissionModes.UNACKNOWLEDGED
    crc_flag := false
    direction := Direction.TOWARDS_RECEIVER
    seg_ctrl := false }

/-- `tmtccmd.cfdp.defs.TransactionId` (module not in the provided sources).
Modelled from the spec: unique pair of source entity id and transaction
sequence number. -/
structure TransactionId where
  source_entity_id : UnsignedByteField
  seq_num : UnsignedByteField
deriving DecidableEq, Repr

/-- spacepackets `MetadataParams`. -/
structure MetadataParams where
  dest_file_name : String
  source_file_name : String
  checksum_type : ChecksumTypes
  closure_requested : Bool
  file_size : Nat
deriving DecidableEq, Repr

/-- The PDU variants carried by a `PduHolder` (spacepackets PDU classes,
restricted to the fields the two handlers read or write). An `EofPdu`
constructed by the source handler always carries `NO_ERROR`. -/
inductive Pdu where
  | metadata (pdu_conf : PduConfig) (params : MetadataParams)
  | fileData (pdu_conf : PduConfig) (file_data : List Nat) (offset : Nat)
      (segment_metadata_flag : Bool)
  | eof (pdu_conf : PduConfig) (file_checksum : List Nat) (file_size : Nat)
      (condition_code : ConditionCode)
  | finished (pdu_conf : PduConfig) (condition_code : ConditionCode)
      (delivery_code : DeliveryCode) (file_status : FileDeliveryStatus)
  | ack (pdu_conf : PduConfig)
  | nak (pdu_conf : PduConfig)
deriving DecidableEq, Repr

/-- spacepackets `PduHolder.is_file_directive`: everything but File-Data. -/
def Pdu.is_file_directive : Pdu → Bool
  | .fileData _ _ _ _ => false
  | _ => true

/-- spacepackets `PduHolder.pdu_directive_type` for file directives. -/
def Pdu.directive_type : Pdu → Option DirectiveType
  | .metadata _ _ => some DirectiveType.METADATA_PDU
  | .eof _ _ _ _ => some DirectiveType.EOF_PDU
  | .finished _ _ _ _ => some DirectiveType.FINISHED_PDU
  | .ack _ => some DirectiveType.ACK_PDU
  | .nak _ => some DirectiveType.NAK_PDU
  | .fileData _ _ _ _ => none

/-- Header config of a PDU. -/
def Pdu.conf : Pdu → PduConfig
  | .metadata c _ => c
  | .fileData c _ _ _ => c
  | .eof c _ _ _ => c
  | .finished c _ _ _ => c
  | .ack c => c
  | .nak c => c

/-- `tmtccmd.cfdp.mib.LocalIndicationCfg`. -/
structure LocalIndicationCfg where
  eof_sent_indication_required : Bool
  eof_recv_indication_required : Bool
  file_segment_recvd_indication_required : Bool
  transaction_finished_indication_required : Bool
  suspended_indication_required : Bool
  resumed_indication_required : Bool
deriving DecidableEq, Repr

/-- `tmtccmd.cfdp.mib.LocalEntityCfg`. The `default_fault_handlers`
callback is opaque host code never invoked by the embedded handlers and is
omitted. -/
structure LocalEntityCfg where
  local_entity_id : UnsignedByteField
  indication_cfg : LocalIndicationCfg
deriving DecidableEq, Repr

/-- `tmtccmd.cfdp.mib.RemoteEntityCfg`. The fields `closure_requested` and
`default_transmission_mode` are read by the source handler but absent from
the `mib.py` snapshot in the sources; they are modelled from the spec
(remote entity descriptor fields `closure_requested` and
`default_transmission_mode`). -/
structure RemoteEntityCfg where
  remote_entity_id : UnsignedByteField
  max_file_segment_len : Nat
  crc_on_transmission : Bool
  crc_type : ChecksumTypes
  closure_requested : Bool
  default_transmission_mode : TransmissionModes
deriving DecidableEq, Repr

/-- `tmtccmd.cfdp.handler.defs.FileParams` (module not in the provided
sources). Modelled from the spec: offset, segment_len, crc32, size;
`reset` zeroes all fields (mirroring `DestFileParams.empty` in `dest.py`). -/
structure FileParams where
  offset : Nat
  segment_len : Nat
  crc32 : List Nat
  size : Nat
deriving DecidableEq, Repr

/-- All-zero file parameters, the state after `FileParams.reset()`. -/
def FileParams.empty : FileParams :=
  { offset := 0, segment_len := 0, crc32 := [], size := 0 }

/-- `tmtccmd.cfdp.defs.CfdpStates` (module not in the provided sources).
Modelled from the spec data model `SourceState.state`. -/
inductive CfdpStates where
  | IDLE
  | BUSY_CLASS_1_NACKED
  | BUSY_CLASS_2_ACKED
deriving DecidableEq, Repr

/-- `tmtccmd.cfdp.defs.SourceTransactionStep` (module not in the provided
sources). Modelled from the spec data model `SourceState.step`. -/
inductive SourceTransactionStep where
  | IDLE
  | TRANSACTION_START
  | CRC_PROCEDURE
  | SENDING_METADATA
  | SENDING_FILE_DATA
  | SENDING_EOF
  | NOTICE_OF_COMPLETION
deriving DecidableEq, Repr

/-- `SourceStateWrapper` from `source.py`. -/
structure SourceStateWrapper where
  state : CfdpStates := CfdpStates.IDLE
  step : SourceTransactionStep := SourceTransactionStep.IDLE
  packet_ready : Bool := false
deriving DecidableEq, Repr

/-- The configuration part of a `PutRequest` (`tmtccmd.cfdp.request`,
module not in the provided sources). Modelled from the spec and from the
fields the source handler reads: source file path, destination file name,
destination entity id, optional transmission-mode override and the
segmentation control flag. -/
structure PutRequestCfg where
  source_file : String
  dest_file : String
  destination_id : UnsignedByteField
  trans_mode : Option TransmissionModes
  seg_ctrl : Bool
deriving DecidableEq, Repr

/-- `tmtccmd.util.ProvidesSeqCount` (module not in the provided sources).
Modelled from the spec: the provider returns a `u64` and declares a
`max_bit_width`; overflow wraps. `get_and_increment` returns the current
counter and advances it with wrap-around at `2 ^ max_bit_width`. -/
structure SeqProvider where
  max_bit_width : Nat
  counter : Nat
deriving DecidableEq, Repr

/-- `ProvidesSeqCount.get_and_increment`. -/
def SeqProvider.get_and_increment (p : SeqProvider) : Nat × SeqProvider :=
  (p.counter, { p with counter := (p.counter + 1) % 2 ^ p.max_bit_width })

/-- The user indications of `tmtccmd.cfdp.user.CfdpUserBase` (module not in
the provided sources). Modelled from the spec indication table; each
constructor records the arguments the handlers pass. -/
inductive Indication where
  | transaction_ind (tid : Option TransactionId)
  | eof_sent (tid : Option TransactionId)
  | transaction_finished (tid : Option TransactionId)
      (condition_code : ConditionCode) (file_status : FileDeliveryStatus)
      (delivery_code : DeliveryCode)
  | metadata_recv (tid : Option TransactionId) (file_size : Nat)
      (source_id : UnsignedByteField) (dest_file_name : String)
      (source_file_name : String)
  | file_segment_recv (tid : Option TransactionId) (offset : Nat)
      (length : Nat)
  | eof_recv (tid : Option TransactionId)
deriving DecidableEq, Repr

/-- The exceptions raised by the handlers, plus `noneAccessError` for a
Python attribute access on `None`, `indexError` for `deque[0]` on an empty
deque, and `loopFuelExhausted` marking that the `while` loop of the CRC
procedure did not terminate within the given fuel. -/
inductive SourceError where
  | sourceFileDoesNotExist
  | checksumNotImplemented (t : ChecksumTypes)
  | packetSendNotConfirmed
  | invalidSeqNumWidth
  | invalidPduForSourceHandler
  | noneAccessError
  | indexError
  | loopFuelExhausted
deriving DecidableEq, Repr

/-- `TransferFieldWrapper` from `source.py`: per-transaction mutable
fields. -/
structure TransferFieldWrapper where
  transaction : Option TransactionId
  fp : FileParams
  remote_cfg : Option RemoteEntityCfg
  pdu_conf : PduConfig
deriving DecidableEq, Repr

/-- `TransferFieldWrapper.__init__(local_entity_id)`. -/
def TransferFieldWrapper.mk0 (local_entity_id : UnsignedByteField) :
    TransferFieldWrapper :=
  { transaction := none
    fp := FileParams.empty
    remote_cfg := none
    pdu_conf := { PduConfig.empty with source_entity_id := local_entity_id } }

/-- `TransferFieldWrapper.reset()`. -/
def TransferFieldWrapper.reset (w : TransferFieldWrapper) :
    TransferFieldWrapper :=
  { w with
    fp := FileParams.empty
    remote_cfg := none
    transaction := none
    pdu_conf := PduConfig.empty }

/-- The `SourceHandler` object state: FSM state wrapper, the `PduHolder`
(`pdu_wrapper`), the transfer fields, the current put request, the inbound
receive queue, the sequence-number provider, and the log of user
indications raised so far (the observable effect of the `user` callbacks). -/
structure SourceHandler where
  cfg : LocalEntityCfg
  seq_num_provider : SeqProvider
  states : SourceStateWrapper
  pdu_wrapper : Option Pdu
  params : TransferFieldWrapper
  current_req : Option PutRequestCfg
  rec_queue : List Pdu
  indications : List Indication
deriving DecidableEq, Repr

/-- `SourceHandler.__init__`. -/
def SourceHandler.mk0 (cfg : LocalEntityCfg) (prov : SeqProvider) :
    SourceHandler :=
  { cfg := cfg
    seq_num_provider := prov
    states := {}
    pdu_wrapper := none
    params := TransferFieldWrapper.mk0 cfg.local_entity_id
    current_req := none
    rec_queue := []
    indications := [] }

/-- The filestore visible to the handlers: maps a path to the byte contents
of the file when it exists (`CfdpUserBase.vfs` on the read side). -/
def Filestore : Type := String → Option (List Nat)

/-- `VirtualFilestore.read_from_opened_file(of, offset, len)`: seek to
`offset` and read up to `read_len` bytes (a read reaching past end of file
returns the bytes that exist, as Python `file.read` does). -/
def readFromOpenedFile (contents : List Nat) (offset read_len : Nat) :
    List Nat :=
  (contents.drop offset).take read_len

/-- The digest a predefined `crcmod` CRC object produces from the byte
stream fed to it. The two handlers never inspect digest values, so the
external library is kept abstract: functions below take `crc` as an
argument mapping the checksum type and the streamed bytes to the digest. -/
def CrcDigest : Type := ChecksumTypes → List Nat → List Nat

/-- `SourceHandler._setup_transmission_mode()`: the transmission-mode
setting of the put request overrides the remote MIB default. -/
def setupTransmissionMode (req : PutRequestCfg) (remote_cfg : RemoteEntityCfg) :
    TransmissionModes :=
  match req.trans_mode with
  | some m => m
  | none => remote_cfg.default_transmission_mode

/-- `SourceHandler.start_transaction(wrapper, remote_cfg)` for a PUT
request (the only request kind the handler acts on): store the request and
remote config, clear `packet_ready`, resolve the transmission mode
(request override, else remote default, `_setup_transmission_mode`), enter
the matching BUSY state and return `True`; return `False` when not IDLE. -/
def SourceHandler.start_transaction (req : PutRequestCfg)
    (remote_cfg : RemoteEntityCfg) (h : SourceHandler) :
    SourceHandler × Bool :=
  if h.states.state ≠ CfdpStates.IDLE then (h, false)
  else
    let trans_mode_to_set := setupTransmissionMode req remote_cfg
    let h := { h with
      current_req := some req
      params := { h.params with
        remote_cfg := some remote_cfg
        pdu_conf := { h.params.pdu_conf with trans_mode := trans_mode_to_set } }
      states := { h.states with packet_ready := false } }
    match trans_mode_to_set with
    | TransmissionModes.UNACKNOWLEDGED =>
        ({ h with states := { h.states with
            state := CfdpStates.BUSY_CLASS_1_NACKED } }, true)
    | TransmissionModes.ACKNOWLEDGED =>
        ({ h with states := { h.states with
            state := CfdpStates.BUSY_CLASS_2_ACKED } }, true)

/-- `SourceHandler.pass_packet(wrapper)`: reject File-Data and Metadata
PDUs, append anything else to the receive queue. -/
def SourceHandler.pass_packet (pdu : Pdu) (h : SourceHandler) :
    Except SourceError SourceHandler :=
  if ¬ pdu.is_file_directive then
    Except.error SourceError.invalidPduForSourceHandler
  else if pdu.directive_type = some DirectiveType.METADATA_PDU then
    Except.error SourceError.invalidPduForSourceHandler
  else
    Except.ok { h with rec_queue := h.rec_queue ++ [pdu] }

/-- `SourceHandler._get_next_transfer_seq_num()`: draw the next value from
the provider (the counter advances first, even when the width check then
fails), reject a `max_bit_width` outside `[8, 16, 32]` with `ValueError`,
and narrow the value into a byte field of `max_bit_width / 8` bytes
(`ByteFieldGenerator.from_int`, which raises `ValueError` when the value
does not fit the width). -/
def SourceHandler.get_next_transfer_seq_num (h : SourceHandler) :
    Except SourceError (SourceHandler × UnsignedByteField) :=
  let (next_seq_num, prov) := h.seq_num_provider.get_and_increment
  let h := { h with seq_num_provider := prov }
  if h.seq_num_provider.max_bit_width ∉ [8, 16, 32] then
    Except.error SourceError.invalidSeqNumWidth
  else
    let byte_len := h.seq_num_provider.max_bit_width / 8
    if next_seq_num < 2 ^ (8 * byte_len) then
      Except.ok (h, ⟨byte_len, next_seq_num⟩)
    else
      Except.error SourceError.invalidSeqNumWidth

/-- `SourceHandler._transaction_start(put_req)`: require the source file to
exist, record its size and the remote segment length in `fp`, allocate the
`TransactionId` from the local entity id and a fresh sequence number, and
raise `transaction_indication`. -/
def SourceHandler.transaction_start (fs : Filestore) (put_req : PutRequestCfg)
    (h : SourceHandler) : Except SourceError SourceHandler :=
  match fs put_req.source_file with
  | none => Except.error SourceError.sourceFileDoesNotExist
  | some contents =>
    let h := { h with params := { h.params with
      fp := { h.params.fp with size := contents.length } } }
    match h.params.remote_cfg with
    | none => Except.error SourceError.noneAccessError
    | some remote =>
      let h := { h with params := { h.params with
        fp := { h.params.fp with segment_len := remote.max_file_segment_len } } }
      match h.get_next_transfer_seq_num with
      | Except.error e => Except.error e
      | Except.ok (h, seq_num) =>
        let tid : TransactionId :=
          ⟨h.cfg.local_entity_id, seq_num⟩
        Except.ok { h with
          params := { h.params with transaction := some tid }
          indications := h.indications ++ [Indication.transaction_ind (some tid)] }

/-- The `read_len` computation shared verbatim by the CRC `while` loop of
`calc_crc_for_file_crcmod` and by `_prepare_next_file_data_pdu`:
`file_sz` when `file_sz < segment_len`, else `segment_len` while the next
offset stays within the file, else `next_offset % file_sz`. -/
def readLenOf (file_sz segment_len current_offset : Nat) : Nat :=
  if file_sz < segment_len then file_sz
  else
    let next_offset := current_offset + segment_len
    if file_sz < next_offset then next_offset % file_sz
    else segment_len

/-- The `while True` loop of `calc_crc_for_file_crcmod`, with explicit
fuel; `none` means the loop did not reach `current_offset == file_sz`
within `fuel` iterations. The accumulator is the byte stream fed to the
CRC object via `crc_obj.update`. -/
def crcLoop (contents : List Nat) (file_sz segment_len : Nat) :
    Nat → Nat → List Nat → Option (List Nat)
  | 0, _, _ => none
  | fuel + 1, current_offset, acc =>
    if current_offset = file_sz then some acc
    else
      let read_len := readLenOf file_sz segment_len current_offset
      let acc := if 0 < read_len then
          acc ++ readFromOpenedFile contents current_offset read_len
        else acc
      crcLoop contents file_sz segment_len fuel (current_offset + read_len) acc

/-- `SourceHandler.calc_crc_for_file_crcmod(crc_obj, file, file_sz,
segment_len)`: require the file to exist, stream it through the CRC object
and return the digest. -/
def SourceHandler.calc_crc_for_file_crcmod (crc : CrcDigest)
    (crc_type : ChecksumTypes) (fs : Filestore) (file : String)
    (file_sz segment_len fuel : Nat) : Except SourceError (List Nat) :=
  match fs file with
  | none => Except.error SourceError.sourceFileDoesNotExist
  | some contents =>
    match crcLoop contents file_sz segment_len fuel 0 [] with
    | none => Except.error SourceError.loopFuelExhausted
    | some stream => Except.ok (crc crc_type stream)

/-- `SourceHandler.calc_cfdp_file_crc(crc_type, file, file_sz,
segment_len)`: dispatch on the checksum type, supporting CRC-32 and
CRC-32C only. -/
def SourceHandler.calc_cfdp_file_crc (crc : CrcDigest)
    (crc_type : ChecksumTypes) (fs : Filestore) (file : String)
    (file_sz segment_len fuel : Nat) : Except SourceError (List Nat) :=
  if crc_type = ChecksumTypes.CRC_32 then
    SourceHandler.calc_crc_for_file_crcmod crc crc_type fs file file_sz
      segment_len fuel
  else if crc_type = ChecksumTypes.CRC_32C then
    SourceHandler.calc_crc_for_file_crcmod crc crc_type fs file file_sz
      segment_len fuel
  else
    Except.error (SourceError.checksumNotImplemented crc_type)

/-- `SourceHandler._prepare_metadata_pdu(put_req)`: refuse while a packet
is pending, fill the shared `PduConfig` (segmentation control, destination
id, CRC flag, direction, the sequence number from the `TransactionId`) and
place a Metadata PDU in the holder. -/
def SourceHandler.prepare_metadata_pdu (put_req : PutRequestCfg)
    (h : SourceHandler) : Except SourceError SourceHandler :=
  if h.states.packet_ready then
    Except.error SourceError.packetSendNotConfirmed
  else
    match h.params.remote_cfg with
    | none => Except.error SourceError.noneAccessError
    | some remote =>
      match h.params.transaction with
      | none => Except.error SourceError.noneAccessError
      | some tid =>
        let pdu_conf := { h.params.pdu_conf with
          seg_ctrl := put_req.seg_ctrl
          dest_entity_id := put_req.destination_id
          crc_flag := remote.crc_on_transmission
          direction := Direction.TOWARDS_RECEIVER
          transaction_seq_num := tid.seq_num }
        let params : MetadataParams :=
          { dest_file_name := put_req.dest_file
            source_file_name := put_req.source_file
            checksum_type := remote.crc_type
            closure_requested := remote.closure_requested
            file_size := h.params.fp.size }
        Except.ok { h with
          params := { h.params with pdu_conf := pdu_conf }
          pdu_wrapper := some (Pdu.metadata pdu_conf params) }

/-- `SourceHandler._prepare_next_file_data_pdu(request)`: returns `True`
when a File-Data PDU was placed in the holder, `False` when file-data
handling is done. The read length uses the same `file_sz < segment_len` /
`next_offset % file_sz` computation as the CRC loop, a fresh sequence
number is drawn into the `PduConfig`, and `fp.offset` advances by
`read_len`. -/
def SourceHandler.prepare_next_file_data_pdu (fs : Filestore)
    (put_req : PutRequestCfg) (h : SourceHandler) :
    Except SourceError (SourceHandler × Bool) :=
  if h.params.fp.size = 0 then Except.ok (h, false)
  else
    match fs put_req.source_file with
    | none => Except.error SourceError.sourceFileDoesNotExist
    | some contents =>
      if h.params.fp.offset = h.params.fp.size then Except.ok (h, false)
      else if h.states.packet_ready then
        Except.error SourceError.packetSendNotConfirmed
      else
        let read_len :=
          readLenOf h.params.fp.size h.params.fp.segment_len h.params.fp.offset
        let file_data := readFromOpenedFile contents h.params.fp.offset read_len
        match h.get_next_transfer_seq_num with
        | Except.error e => Except.error e
        | Except.ok (h, seq_num) =>
          let pdu_conf := { h.params.pdu_conf with
            transaction_seq_num := seq_num }
          let pdu := Pdu.fileData pdu_conf file_data h.params.fp.offset false
          Except.ok ({ h with
            params := { h.params with
              pdu_conf := pdu_conf
              fp := { h.params.fp with
                offset := h.params.fp.offset + read_len } }
            pdu_wrapper := some pdu }, true)

/-- `SourceHandler._prepare_eof_pdu()`: refuse while a packet is pending,
place an EOF PDU built from `fp.crc32` and `fp.size` in the holder. -/
def SourceHandler.prepare_eof_pdu (h : SourceHandler) :
    Except SourceError SourceHandler :=
  if h.states.packet_ready then
    Except.error SourceError.packetSendNotConfirmed
  else
    Except.ok { h with
      pdu_wrapper := some (Pdu.eof h.params.pdu_conf h.params.fp.crc32
        h.params.fp.size ConditionCode.NO_ERROR) }

/-- Set the FSM step (`self.states.step = ...`). -/
def SourceHandler.setStep (h : SourceHandler) (s : SourceTransactionStep) :
    SourceHandler :=
  { h with states := { h.states with step := s } }

/-- Set the packet-ready flag (`self.states.packet_ready = ...`). -/
def SourceHandler.setPacketReady (h : SourceHandler) (b : Bool) :
    SourceHandler :=
  { h with states := { h.states with packet_ready := b } }

/-- Store a checksum in the file parameters (`self.params.fp.crc32 = ...`). -/
def SourceHandler.setCrc32 (h : SourceHandler) (digest : List Nat) :
    SourceHandler :=
  { h with params := { h.params with
    fp := { h.params.fp with crc32 := digest } } }

/-- Record a raised user indication (`self.user.<indication>(...)`). -/
def SourceHandler.addIndication (h : SourceHandler) (i : Indication) :
    SourceHandler :=
  { h with indications := h.indications ++ [i] }

/-- `SourceHandler.reset()`: step and state back to IDLE,
`self.params.reset()` (file params, remote config, transaction id and PDU
config cleared); nothing else is touched. -/
def SourceHandler.reset (h : SourceHandler) : SourceHandler :=
  { h with
    states := { h.states with
      step := SourceTransactionStep.IDLE
      state := CfdpStates.IDLE }
    params := h.params.reset }

/-- `SourceHandler.state_machine()`: one call of the primary FSM,
mirroring the sequential `if` chain of `source.py` (each block tests the
step as updated by the previous block; placing a PDU in the holder returns
early with `packet_ready` set). `fuel` bounds the iterations of the CRC
`while` loop. -/
def SourceHandler.state_machine (crc : CrcDigest) (fs : Filestore)
    (fuel : Nat) (h : SourceHandler) : Except SourceError SourceHandler :=
  if h.states.state = CfdpStates.IDLE then Except.ok h
  else if h.states.state = CfdpStates.BUSY_CLASS_1_NACKED then
    match h.current_req with
    | none => Except.error SourceError.noneAccessError
    | some put_req =>
      let h := if h.states.step = SourceTransactionStep.IDLE then
          h.setStep SourceTransactionStep.TRANSACTION_START
        else h
      let step2 : Except SourceError SourceHandler :=
        if h.states.step = SourceTransactionStep.TRANSACTION_START then
          match h.transaction_start fs put_req with
          | Except.error e => Except.error e
          | Except.ok h => Except.ok (h.setStep SourceTransactionStep.CRC_PROCEDURE)
        else Except.ok h
      match step2 with
      | Except.error e => Except.error e
      | Except.ok h =>
        let step3 : Except SourceError SourceHandler :=
          if h.states.step = SourceTransactionStep.CRC_PROCEDURE then
            if h.params.fp.size = 0 then
              Except.ok ((h.setCrc32 NULL_CHECKSUM_U32).setStep
                SourceTransactionStep.SENDING_METADATA)
            else
              match h.params.remote_cfg with
              | none => Except.error SourceError.noneAccessError
              | some remote =>
                match SourceHandler.calc_cfdp_file_crc crc remote.crc_type fs
                    put_req.source_file h.params.fp.size
                    h.params.fp.segment_len fuel with
                | Except.error e => Except.error e
                | Except.ok digest =>
                  Except.ok ((h.setCrc32 digest).setStep
                    SourceTransactionStep.SENDING_METADATA)
          else Except.ok h
        match step3 with
        | Except.error e => Except.error e
        | Except.ok h =>
          if h.states.step = SourceTransactionStep.SENDING_METADATA then
            match h.prepare_metadata_pdu put_req with
            | Except.error e => Except.error e
            | Except.ok h => Except.ok (h.setPacketReady true)
          else
            let step5 : Except SourceError (SourceHandler × Bool) :=
              if h.states.step = SourceTransactionStep.SENDING_FILE_DATA then
                match h.prepare_next_file_data_pdu fs put_req with
                | Except.error e => Except.error e
                | Except.ok (h, true) => Except.ok (h, true)
                | Except.ok (h, false) =>
                  Except.ok (h.setStep SourceTransactionStep.SENDING_EOF, false)
              else Except.ok (h, false)
            match step5 with
            | Except.error e => Except.error e
            | Except.ok (h, true) => Except.ok (h.setPacketReady true)
            | Except.ok (h, false) =>
              if h.states.step = SourceTransactionStep.SENDING_EOF then
                match h.prepare_eof_pdu with
                | Except.error e => Except.error e
                | Except.ok h => Except.ok (h.setPacketReady true)
              else if h.states.step = SourceTransactionStep.NOTICE_OF_COMPLETION
                  then
                match h.params.remote_cfg with
                | none => Except.error SourceError.noneAccessError
                | some remote =>
                  if remote.closure_requested then
                    -- `holder = PduHolder(self._rec_queue[0])`: reading the
                    -- first queue element raises IndexError on an empty
                    -- deque; otherwise the value is bound and discarded.
                    match h.rec_queue with
                    | [] => Except.error SourceError.indexError
                    | _ :: _ => Except.ok h
                  else
                    let h := h.addIndication
                      (Indication.transaction_finished h.params.transaction
                        ConditionCode.NO_ERROR
                        FileDeliveryStatus.FILE_STATUS_UNREPORTED
                        DeliveryCode.DATA_COMPLETE)
                    Except.ok h.reset
              else Except.ok h
  else Except.ok h

/-- `SourceHandler.confirm_packet_sent()`: clear `packet_ready`. -/
def SourceHandler.confirm_packet_sent (h : SourceHandler) : SourceHandler :=
  { h with states := { h.states with packet_ready := false } }

/-- `SourceHandler.advance_fsm()`: refuse while `packet_ready`, otherwise
walk the Class-1 step transitions (metadata → file data; file data → EOF
once the offset reached the size; EOF → notice of completion, raising
`eof_sent_indication`). -/
def SourceHandler.advance_fsm (h : SourceHandler) :
    Except SourceError SourceHandler :=
  if h.states.packet_ready then
    Except.error SourceError.packetSendNotConfirmed
  else if h.states.state = CfdpStates.BUSY_CLASS_1_NACKED then
    if h.states.step = SourceTransactionStep.SENDING_METADATA then
      Except.ok (h.setStep SourceTransactionStep.SENDING_FILE_DATA)
    else if h.states.step = SourceTransactionStep.SENDING_FILE_DATA then
      if h.params.fp.offset = h.params.fp.size then
        Except.ok (h.setStep SourceTransactionStep.SENDING_EOF)
      else Except.ok h
    else if h.states.step = SourceTransactionStep.SENDING_EOF then
      let h := h.addIndication (Indication.eof_sent h.params.transaction)
      Except.ok (h.setStep SourceTransactionStep.NOTICE_OF_COMPLETION)
    else Except.ok h
  else Except.ok h

/-- `SourceHandler.confirm_packet_sent_advance_fsm()`. -/
def SourceHandler.confirm_packet_sent_advance_fsm (h : SourceHandler) :
    Except SourceError SourceHandler :=
  h.confirm_packet_sent.advance_fsm

/-- The host driving pattern of the spec: alternate `state_machine()` and
`confirm_packet_sent_advance_fsm()`, recording each PDU the handler hands
over in the holder while `packet_ready`, until the handler returns to IDLE
or reaches `NOTICE_OF_COMPLETION` (the send sequence is complete). `fuel`
bounds the number of rounds, `crcFuel` the CRC loop inside one call. -/
def driveSource (crc : CrcDigest) (fs : Filestore) (crcFuel : Nat) :
    Nat → SourceHandler → Except SourceError (SourceHandler × List Pdu)
  | 0, h => Except.ok (h, [])
  | fuel + 1, h =>
    if h.states.step = SourceTransactionStep.NOTICE_OF_COMPLETION then
      Except.ok (h, [])
    else
      match h.state_machine crc fs crcFuel with
      | Except.error e => Except.error e
      | Except.ok h =>
        if h.states.packet_ready then
          let emitted := h.pdu_wrapper
          match h.confirm_packet_sent_advance_fsm with
          | Except.error e => Except.error e
          | Except.ok h =>
            match driveSource crc fs crcFuel fuel h with
            | Except.error e => Except.error e
            | Except.ok (h, rest) =>
              Except.ok (h, emitted.toList ++ rest)
        else if h.states.state = CfdpStates.IDLE then Except.ok (h, [])
        else
          match h.confirm_packet_sent_advance_fsm with
          | Except.error e => Except.error e
          | Except.ok h => driveSource crc fs crcFuel fuel h

/-! ## Destination handler (`dest.py`) -/

/-- `DestFileParams` from `dest.py`: `FileParamsBase` plus the destination
file name. -/
structure DestFileParams where
  offset : Nat
  segment_len : Nat
  crc32 : List Nat
  size : Nat
  file_name : String
deriving DecidableEq, Repr

/-- `DestFileParams.empty()`. -/
def DestFileParams.empty : DestFileParams :=
  { offset := 0, segment_len := 0, crc32 := [], size := 0, file_name := "" }

/-- `TransactionStep` from `dest.py`. -/
inductive DestTransactionStep where
  | IDLE
  | TRANSACTION_START
  | RECEIVING_FILE_DATA
  | SENDING_ACK_PDU
  | TRANSFER_COMPLETION
  | SENDING_FINISHED_PDU
deriving DecidableEq, Repr

/-- `DestStateWrapper` from `dest.py`. -/
structure DestStateWrapper where
  state : CfdpStates := CfdpStates.IDLE
  transaction : DestTransactionStep := DestTransactionStep.IDLE
  packet_ready : Bool := false
deriving DecidableEq, Repr

/-- A `vfs.write_data(file, data, offset)` call recorded against the
virtual filestore. -/
structure WriteCall where
  file_name : String
  data : List Nat
  offset : Nat
deriving DecidableEq, Repr

/-- The `DestHandler` object state. The `_file_directives_dict` is kept as
one arrival-ordered list per directive type (`directives`), the File-Data
deque as a list; `writes` logs the `vfs.write_data` calls and
`indications` the user callbacks. -/
structure DestHandler where
  cfg : LocalEntityCfg
  states : DestStateWrapper
  pdu_holder : Option Pdu
  transaction_id : Option TransactionId
  checksum_type : ChecksumTypes
  closure_requested : Bool
  fp : DestFileParams
  directives : DirectiveType → List Pdu
  file_data_deque : List Pdu
  writes : List WriteCall
  indications : List Indication

/-- `DestHandler.__init__(cfg, user)`. -/
def DestHandler.mk0 (cfg : LocalEntityCfg) : DestHandler :=
  { cfg := cfg
    states := {}
    pdu_holder := none
    transaction_id := none
    checksum_type := ChecksumTypes.NULL_CHECKSUM
    closure_requested := false
    fp := DestFileParams.empty
    directives := fun _ => []
    file_data_deque := []
    writes := []
    indications := [] }

/-- `DestHandler.pass_packet(packet)`: File-Data PDUs to the deque,
everything else appended to its directive-type list. -/
def DestHandler.pass_packet (pdu : Pdu) (h : DestHandler) : DestHandler :=
  match pdu.directive_type with
  | none => { h with file_data_deque := h.file_data_deque ++ [pdu] }
  | some t => { h with directives := fun t2 =>
      if t2 = t then h.directives t2 ++ [pdu] else h.directives t2 }

/-- `DestHandler._start_transaction(metadata_pdu)`: accept an inbound
Metadata PDU while IDLE: set the BUSY state from the header transmission
mode, record checksum type, closure flag, destination file name and size,
allocate the `TransactionId` from the header source entity id and sequence
number, enter `RECEIVING_FILE_DATA` and raise `metadata_recv_indication`
(Metadata TLV options are not modelled; no claim touches them). -/
def DestHandler.start_transaction (conf : PduConfig)
    (params : MetadataParams) (h : DestHandler) : DestHandler × Bool :=
  if h.states.state ≠ CfdpStates.IDLE then (h, false)
  else
    let st :=
      match conf.trans_mode with
      | TransmissionModes.UNACKNOWLEDGED => CfdpStates.BUSY_CLASS_1_NACKED
      | TransmissionModes.ACKNOWLEDGED => CfdpStates.BUSY_CLASS_2_ACKED
    let tid : TransactionId := ⟨conf.source_entity_id, conf.transaction_seq_num⟩
    ({ h with
      states := { h.states with
        state := st
        transaction := DestTransactionStep.RECEIVING_FILE_DATA }
      checksum_type := params.checksum_type
      closure_requested := params.closure_requested
      fp := { h.fp with
        file_name := params.dest_file_name
        size := params.file_size }
      transaction_id := some tid
      indications := h.indications ++
        [Indication.metadata_recv (some tid) params.file_size
          conf.source_entity_id params.dest_file_name
          params.source_file_name] }, true)

/-- The `for pdu in self._file_directives_dict.get(METADATA_PDU)` loop of
`DestHandler.state_machine` with its `break` on the first accepted
Metadata PDU; non-Metadata entries cannot occur in that list but are
skipped defensively by the cast. -/
def DestHandler.startFirstMetadata : List Pdu → DestHandler →
    DestHandler × Bool
  | [], h => (h, false)
  | Pdu.metadata conf params :: rest, h =>
    let (h, started) := h.start_transaction conf params
    if started then (h, true) else DestHandler.startFirstMetadata rest h
  | _ :: rest, h => DestHandler.startFirstMetadata rest h

/-- `DestHandler._handle_eof_pdu(eof_pdu)`: on `NO_ERROR`, record the EOF
checksum and file size in `fp`, raise `eof_recv_indication` when enabled,
and advance `RECEIVING_FILE_DATA` to `TRANSFER_COMPLETION` (Class 1) or
`SENDING_ACK_PDU` (Class 2). -/
def DestHandler.handle_eof_pdu (file_checksum : List Nat) (file_size : Nat)
    (condition_code : ConditionCode) (h : DestHandler) : DestHandler :=
  if condition_code = ConditionCode.NO_ERROR then
    let h := { h with fp := { h.fp with
      crc32 := file_checksum
      size := file_size } }
    let h := if h.cfg.indication_cfg.eof_recv_indication_required then
        { h with indications := h.indications ++
          [Indication.eof_recv h.transaction_id] }
      else h
    if h.states.transaction = DestTransactionStep.RECEIVING_FILE_DATA then
      if h.states.state = CfdpStates.BUSY_CLASS_1_NACKED then
        { h with states := { h.states with
          transaction := DestTransactionStep.TRANSFER_COMPLETION } }
      else if h.states.state = CfdpStates.BUSY_CLASS_2_ACKED then
        { h with states := { h.states with
          transaction := DestTransactionStep.SENDING_ACK_PDU } }
      else h
    else h
  else h

/-- The `for file_data_pdu in self._file_data_deque` loop of
`DestHandler.state_machine`: per PDU, raise `file_segment_recv_indication`
when enabled, then `vfs.write_data(fp.file_name, data, offset)`. The
deque itself is not modified by the loop. -/
def DestHandler.processFileData : List Pdu → DestHandler → DestHandler
  | [], h => h
  | Pdu.fileData _ data offset _ :: rest, h =>
    let h := if h.cfg.indication_cfg.file_segment_recvd_indication_required
        then
        { h with indications := h.indications ++
          [Indication.file_segment_recv h.transaction_id offset data.length] }
      else h
    let h := { h with writes := h.writes ++
      [⟨h.fp.file_name, data, offset⟩] }
    DestHandler.processFileData rest h
  | _ :: rest, h => DestHandler.processFileData rest h

/-- The `for pdu in eof_pdus` loop: handle each queued EOF directive. -/
def DestHandler.processEofs : List Pdu → DestHandler → DestHandler
  | [], h => h
  | Pdu.eof _ checksum size cond :: rest, h =>
    DestHandler.processEofs rest (h.handle_eof_pdu checksum size cond)
  | _ :: rest, h => DestHandler.processEofs rest h

/-- `DestHandler._checksum_verify()`: a `pass` stub in `dest.py` — no
checksum is recomputed, nothing is compared, no state is touched. -/
def DestHandler.checksum_verify (h : DestHandler) : DestHandler := h

/-- `DestHandler._notice_of_completion()`: a `pass` stub in `dest.py` — no
indication is raised. -/
def DestHandler.notice_of_completion (h : DestHandler) : DestHandler := h

/-- `DestHandler._prepare_finished_pdu()`: a `pass` stub in `dest.py` — no
Finished PDU is built and `packet_ready` stays clear. -/
def DestHandler.prepare_finished_pdu (h : DestHandler) : DestHandler := h

/-- `DestHandler.state_machine()`: while IDLE, try to start a transaction
from a pending Metadata PDU (and return without touching file data). In
`BUSY_CLASS_1_NACKED`, the sequential `if` blocks process the File-Data
deque and the queued EOF directives, then run the completion steps. -/
def DestHandler.state_machine (h : DestHandler) : DestHandler :=
  if h.states.state = CfdpStates.IDLE then
    let (h, _started) :=
      DestHandler.startFirstMetadata
        (h.directives DirectiveType.METADATA_PDU) h
    h
  else if h.states.state = CfdpStates.BUSY_CLASS_1_NACKED then
    let h :=
      if h.states.transaction = DestTransactionStep.RECEIVING_FILE_DATA then
        let h := DestHandler.processFileData h.file_data_deque h
        DestHandler.processEofs (h.directives DirectiveType.EOF_PDU) h
      else h
    let h :=
      if h.states.transaction = DestTransactionStep.TRANSFER_COMPLETION then
        let h := h.checksum_verify
        let h := h.notice_of_completion
        { h with states := { h.states with
          transaction := DestTransactionStep.SENDING_FINISHED_PDU } }
      else h
    if h.states.transaction = DestTransactionStep.SENDING_FINISHED_PDU then
      h.prepare_finished_pdu
    else h
  else h

/-! ## Concrete fixtures used to evaluate the handlers -/

/-- Indication configuration with every optional indication enabled. -/
def indAllOn : LocalIndicationCfg := ⟨true, true, true, true, true, true⟩

/-- A local entity configuration: entity id 1 (one byte wide). -/
def localCfg : LocalEntityCfg := ⟨⟨1, 1⟩, indAllOn⟩

/-- An 8-bit sequence-number provider starting at 0. -/
def prov8 : SeqProvider := ⟨8, 0⟩

/-- A CRC digest function for evaluation: the digest is the fed stream
itself (no claim depends on digest values). -/
def crcId : CrcDigest := fun _ stream => stream

/-- A put request for source path `src`, destination file `dst`,
destination entity 2, no transmission-mode override. -/
def putReq : PutRequestCfg := ⟨"src", "dst", ⟨1, 2⟩, none, false⟩

/-- A remote entity configuration with the given segment length and
closure flag, CRC-32 checksum, unacknowledged default mode. -/
def remoteCfg (seg : Nat) (closure : Bool) : RemoteEntityCfg :=
  ⟨⟨1, 2⟩, seg, false, ChecksumTypes.CRC_32, closure,
    TransmissionModes.UNACKNOWLEDGED⟩

/-- A filestore holding exactly one file `src` with the given contents. -/
def fsWith (contents : List Nat) : Filestore :=
  fun p => if p = "src" then some contents else none

/-- A freshly constructed source handler right after a successful
`start_transaction` for `putReq` against `remoteCfg seg closure`. -/
def startedWith (seg : Nat) (closure : Bool) : SourceHandler :=
  ((SourceHandler.mk0 localCfg prov8).start_transaction putReq
    (remoteCfg seg closure)).1

/-- Offset and payload length of a File-Data PDU. -/
def Pdu.fdOffsetLen : Pdu → Option (Nat × Nat)
  | .fileData _ d o _ => some (o, d.length)
  | _ => none

/-- Header config of the inbound PDUs used in the destination scenarios:
source entity 1, sequence number 0, unacknowledged mode. -/
def destMetaConf : PduConfig := { PduConfig.empty with
  source_entity_id := ⟨1, 1⟩
  transaction_seq_num := ⟨1, 0⟩
  trans_mode := TransmissionModes.UNACKNOWLEDGED }

/-- Metadata parameters of the inbound transaction: 2-byte file towards
destination file `dst`, CRC-32, no closure. -/
def destMetaParams : MetadataParams :=
  ⟨"dst", "src", ChecksumTypes.CRC_32, false, 2⟩

/-- Destination handler after receiving the Metadata PDU and one
`state_machine()` call: the transaction has started and the handler is in
`RECEIVING_FILE_DATA`. -/
def destStarted : DestHandler :=
  ((DestHandler.mk0 localCfg).pass_packet
    (Pdu.metadata destMetaConf destMetaParams)).state_machine

/-- `destStarted` with one File-Data PDU queued whose payload `[9, 9]`
differs from the original file contents (one flipped byte scenario). -/
def destWithFd : DestHandler :=
  destStarted.pass_packet (Pdu.fileData destMetaConf [9, 9] 0 false)

/-- Destination handler after Metadata, the corrupted File-Data PDU and
the EOF PDU (carrying the checksum `[1, 2, 3, 4]` of the original file)
have been delivered and processed: the handler ran through
`TRANSFER_COMPLETION` into `SENDING_FINISHED_PDU`. -/
def destC3Final : DestHandler :=
  (destWithFd.pass_packet
    (Pdu.eof destMetaConf [1, 2, 3, 4] 2 ConditionCode.NO_ERROR)).state_machine

/-- The source handler after the full send sequence for an empty file with
closure requested: it sits in `NOTICE_OF_COMPLETION` with an empty receive
queue. -/
def c7Driven : Except SourceError (SourceHandler × List Pdu) :=
  driveSource crcId (fsWith []) 10 10 (startedWith 4 true)

/-- The states of the source handler reachable through its public
operations: construction, `start_transaction`, `state_machine`,
`confirm_packet_sent`, `advance_fsm`, `pass_packet` and `reset`, under any
environment (filestore, CRC service, fuel, requests, inbound PDUs). -/
inductive Reachable : SourceHandler -> Prop where
  | init (cfg : LocalEntityCfg) (prov : SeqProvider) :
      Reachable (SourceHandler.mk0 cfg prov)
  | start (h : SourceHandler) (req : PutRequestCfg)
      (remote : RemoteEntityCfg) : Reachable h ->
      Reachable (h.start_transaction req remote).1
  | step (h h' : SourceHandler) (crc : CrcDigest) (fs : Filestore)
      (fuel : Nat) : Reachable h ->
      h.state_machine crc fs fuel = Except.ok h' -> Reachable h'
  | confirm (h : SourceHandler) : Reachable h ->
      Reachable h.confirm_packet_sent
  | advance (h h' : SourceHandler) : Reachable h ->
      h.advance_fsm = Except.ok h' -> Reachable h'
  | pass (h h' : SourceHandler) (pdu : Pdu) : Reachable h ->
      h.pass_packet pdu = Except.ok h' -> Reachable h'
  | reset (h : SourceHandler) : Reachable h -> Reachable h.reset

@[simp] lemma setStep_states_state (h : SourceHandler)
    (s : SourceTransactionStep) :
    (h.setStep s).states.state = h.states.state := rfl

@[simp] lemma setStep_states_step (h : SourceHandler)
    (s : SourceTransactionStep) : (h.setStep s).states.step = s := rfl

@[simp] lemma setStep_states_packet_ready (h : SourceHandler)
    (s : SourceTransactionStep) :
    (h.setStep s).states.packet_ready = h.states.packet_ready := rfl

@[simp] lemma setStep_params (h : SourceHandler) (s : SourceTransactionStep) :
    (h.setStep s).params = h.params := rfl

@[simp] lemma setStep_current_req (h : SourceHandler)
    (s : SourceTransactionStep) : (h.setStep s).current_req = h.current_req :=
  rfl

@[simp] lemma setStep_rec_queue (h : SourceHandler)
    (s : SourceTransactionStep) : (h.setStep s).rec_queue = h.rec_queue := rfl

@[simp] lemma setPacketReady_states_state (h : SourceHandler) (b : Bool) :
    (h.setPacketReady b).states.state = h.states.state := rfl

@[simp] lemma setPacketReady_states_step (h : SourceHandler) (b : Bool) :
    (h.setPacketReady b).states.step = h.states.step := rfl

@[simp] lemma setCrc32_states (h : SourceHandler) (d : List Nat) :
    (h.setCrc32 d).states = h.states := rfl

@[simp] lemma setCrc32_params_fp_size (h : SourceHandler) (d : List Nat) :
    (h.setCrc32 d).params.fp.size = h.params.fp.size := rfl

@[simp] lemma setCrc32_params_remote_cfg (h : SourceHandler) (d : List Nat) :
    (h.setCrc32 d).params.remote_cfg = h.params.remote_cfg := rfl

@[simp] lemma addIndication_states (h : SourceHandler) (i : Indication) :
    (h.addIndication i).states = h.states := rfl

@[simp] lemma reset_states_state (h : SourceHandler) :
    h.reset.states.state = CfdpStates.IDLE := rfl

@[simp] lemma reset_states_step (h : SourceHandler) :
    h.reset.states.step = SourceTransactionStep.IDLE := rfl

/-! ## Theorems for the claims -/

/-- Claim C1 (refuted, code bug): the chunk length is claimed to be
`min(segment_len, size - current_offset)`, but the handler computes
`next_offset % file_sz` once `next_offset` exceeds the file size. For a
7-byte file with `segment_len = 4`, driving the handler through a full
transaction emits File-Data chunks `(offset, length)` of
`(0, 4), (4, 1), (5, 2)` — at offset 4 the code reads
`(4 + 4) % 7 = 1` byte where the claim requires `min(4, 7 - 4) = 3`. -/
theorem C1_chunk_length_uses_modulo :
    (driveSource crcId (fsWith [1, 2, 3, 4, 5, 6, 7]) 100 20
        (startedWith 4 false)).map (fun r => r.2.filterMap Pdu.fdOffsetLen)
      = Except.ok [(0, 4), (4, 1), (5, 2)]
    ∧ readLenOf 7 4 4 = 1
    ∧ Nat.min 4 (7 - 4) = 3 := ⟨rfl, rfl, rfl⟩

/-- Claim C4 (refuted, code bug): all PDUs of one transaction are claimed
to carry the sequence number allocated at `TRANSACTION_START`, but
`_prepare_next_file_data_pdu` draws a fresh number from the provider for
every File-Data PDU. For a 2-byte file with `segment_len = 2` and the
counter starting at 0, the `TransactionId` holds sequence number 0 and the
Metadata PDU carries 0, but the File-Data PDU and the EOF PDU carry 1. -/
theorem C4_seq_num_reallocated_per_file_data_pdu :
    (driveSource crcId (fsWith [9, 8]) 100 20 (startedWith 2 false)).map
        (fun r => (r.2.map (fun p => p.conf.transaction_seq_num.value),
          r.1.params.transaction))
      = Except.ok ([0, 1, 1], some ⟨⟨1, 1⟩, ⟨1, 0⟩⟩) := rfl

/-- Claim C7 (refuted, code bug): in `NOTICE_OF_COMPLETION` with closure
requested and no inbound PDU, `state_machine()` is claimed to complete
without error; the code evaluates `self._rec_queue[0]`, which raises
`IndexError` on the empty deque (and even with a Finished PDU queued it
only discards it, never raising `transaction_finished_indication`). -/
theorem C7_notice_of_completion_raises_index_error :
    c7Driven.map (fun r => r.1.states.step)
        = Except.ok SourceTransactionStep.NOTICE_OF_COMPLETION
    ∧ c7Driven.map (fun r => r.1.rec_queue) = Except.ok []
    ∧ c7Driven.map (fun r => r.1.state_machine crcId (fsWith []) 10)
        = Except.ok (Except.error SourceError.indexError) := ⟨rfl, rfl, rfl⟩

/-- Claim C8 counterexample: a sequence-number provider of declared width
64 is claimed to succeed, but `_get_next_transfer_seq_num` accepts only
widths in `[8, 16, 32]` and raises `ValueError` for 64. -/
theorem C8_width_64_raises_value_error :
    (SourceHandler.mk0 localCfg ⟨64, 0⟩).get_next_transfer_seq_num
      = Except.error SourceError.invalidSeqNumWidth := rfl

/-- Claim C8 as amended: a provider width in `[8, 16, 32]` (with the
counter value fitting the width) makes `_get_next_transfer_seq_num`
succeed, narrowing the value into a byte field of `width / 8` bytes; any
other width — 64 included — fails with the invalid-width `ValueError`
(after the provider counter has already been advanced), so no
`TransactionId` is allocated. -/
theorem C8_seq_num_width_check (h : SourceHandler) :
    (h.seq_num_provider.max_bit_width ∈ [8, 16, 32] →
      h.seq_num_provider.counter < 2 ^ h.seq_num_provider.max_bit_width →
      h.get_next_transfer_seq_num = Except.ok
        ({ h with seq_num_provider := { h.seq_num_provider with
            counter := (h.seq_num_provider.counter + 1) %
              2 ^ h.seq_num_provider.max_bit_width } },
          ⟨h.seq_num_provider.max_bit_width / 8, h.seq_num_provider.counter⟩))
    ∧ (h.seq_num_provider.max_bit_width ∉ [8, 16, 32] →
      h.get_next_transfer_seq_num
        = Except.error SourceError.invalidSeqNumWidth) := by
  constructor
  · intro hw hc
    simp only [List.mem_cons, List.not_mem_nil, or_false] at hw
    unfold SourceHandler.get_next_transfer_seq_num SeqProvider.get_and_increment
    rcases hw with hw | hw | hw <;>
      rw [hw] at hc <;> norm_num at hc <;> simp only [hw] <;> norm_num <;>
        simp [hc]
  · intro hw
    unfold SourceHandler.get_next_transfer_seq_num SeqProvider.get_and_increment
    simp [hw]

/-- Witness for C8_seq_num_width_check at the 8-bit provider `prov8`. -/
theorem C8_seq_num_width_check_witness :
    (SourceHandler.mk0 localCfg prov8).get_next_transfer_seq_num
      = Except.ok ({ SourceHandler.mk0 localCfg prov8 with
          seq_num_provider := ⟨8, 1⟩ }, ⟨1, 0⟩) := by
  have h := (C8_seq_num_width_check (SourceHandler.mk0 localCfg prov8)).1
    (by decide) (by decide)
  simpa [SourceHandler.mk0, prov8] using h

/-- Claim C10 (confirmed): `reset()` sets state and step to IDLE and
clears the `TransferFieldWrapper` (file params, PDU config, remote config,
transaction id), and changes nothing else — `packet_ready`, the PDU
holder, the receive queue, the stored request, the provider and the
indication log all keep their values; in particular a reset issued while
`packet_ready` is true leaves `packet_ready` true. -/
theorem C10_reset_clears_only_state_step_and_params (h : SourceHandler) :
    h.reset = { h with
      states := { h.states with
        state := CfdpStates.IDLE
        step := SourceTransactionStep.IDLE }
      params := { transaction := none
                  fp := FileParams.empty
                  remote_cfg := none
                  pdu_conf := PduConfig.empty } }
    ∧ h.reset.states.packet_ready = h.states.packet_ready := ⟨rfl, rfl⟩

/-- Claim C6 counterexample: immediately after a successful
`start_transaction` the handler state is `BUSY_CLASS_1_NACKED` while the
step is still `IDLE`, so the claimed equivalence `state == IDLE ⇔
step == IDLE` does not hold there. -/
theorem C6_equivalence_fails_after_start_transaction :
    ((SourceHandler.mk0 localCfg prov8).start_transaction putReq
        (remoteCfg 4 false)).2 = true
    ∧ ¬ ((((SourceHandler.mk0 localCfg prov8).start_transaction putReq
          (remoteCfg 4 false)).1.states.state = CfdpStates.IDLE)
        ↔ (((SourceHandler.mk0 localCfg prov8).start_transaction putReq
          (remoteCfg 4 false)).1.states.step
            = SourceTransactionStep.IDLE)) := by
  decide

/-- Claim C5 (refuted, code bug): one `state_machine()` call is claimed to
write each queued File-Data PDU exactly once and drain the queue, but the
loop in `dest.py` iterates `self._file_data_deque` without ever removing
elements: after the first call the queue still holds the PDU, and a second
call writes the same PDU to the filestore again. -/
theorem C5_file_data_queue_never_drained :
    destWithFd.state_machine.writes = [⟨"dst", [9, 9], 0⟩]
    ∧ destWithFd.state_machine.file_data_deque
        = [Pdu.fileData destMetaConf [9, 9] 0 false]
    ∧ destWithFd.state_machine.state_machine.writes
        = [⟨"dst", [9, 9], 0⟩, ⟨"dst", [9, 9], 0⟩] := ⟨rfl, rfl, rfl⟩

/-- Claim C3 (refuted, code bug): `TRANSFER_COMPLETION` is claimed to
recompute the destination-file checksum and report a mismatch as
`FILE_CHECKSUM_FAILURE` via `transaction_finished_indication`; but
`_checksum_verify`, `_notice_of_completion` and `_prepare_finished_pdu`
are `pass` stubs in `dest.py`. After delivering corrupted file data with
the original EOF checksum, the handler reaches `SENDING_FINISHED_PDU`
with the EOF checksum stored but never compared, and its indication log
holds only the metadata, file-segment and EOF-received indications — no
`transaction_finished_indication` and no failure status of any kind. -/
theorem C3_checksum_mismatch_never_detected :
    destC3Final.states.transaction = DestTransactionStep.SENDING_FINISHED_PDU
    ∧ destC3Final.fp.crc32 = [1, 2, 3, 4]
    ∧ destC3Final.indications
        = [Indication.metadata_recv (some ⟨⟨1, 1⟩, ⟨1, 0⟩⟩) 2 ⟨1, 1⟩ "dst" "src",
           Indication.file_segment_recv (some ⟨⟨1, 1⟩, ⟨1, 0⟩⟩) 0 2,
           Indication.eof_recv (some ⟨⟨1, 1⟩, ⟨1, 0⟩⟩)]
    ∧ destC3Final.states.packet_ready = false := ⟨rfl, rfl, rfl, rfl⟩

/-- For a 5-byte file with segment length 3, the CRC loop offset only
takes the values 0, 3, 4 and then values strictly beyond the file size
(at offset 3 it reads `(3 + 3) % 5 = 1` byte, at offset 4 it reads
`(4 + 3) % 5 = 2` bytes, stepping to 6), so the `current_offset ==
file_sz` exit is never reached and the loop diverges for every fuel. -/
lemma crcLoop_size5_seg3_diverges (contents : List Nat) :
    ∀ (fuel current_offset : Nat) (acc : List Nat),
      current_offset = 0 ∨ current_offset = 3 ∨ current_offset = 4 ∨
        5 < current_offset →
      crcLoop contents 5 3 fuel current_offset acc = none := by
  intro fuel
  induction fuel with
  | zero => intro off acc hoff; rfl
  | succ n ih =>
    intro off acc hoff
    have hne : ¬ off = 5 := by omega
    rcases hoff with h0 | h3 | h4 | h5
    · subst h0
      simp only [crcLoop, readLenOf]
      norm_num
      exact ih _ _ (by omega)
    · subst h3
      simp only [crcLoop, readLenOf]
      norm_num
      exact ih _ _ (by omega)
    · subst h4
      simp only [crcLoop, readLenOf]
      norm_num
      exact ih _ _ (by omega)
    · have hr : readLenOf 5 3 off = (off + 3) % 5 := by
        unfold readLenOf
        rw [if_neg (by norm_num), if_pos (by omega)]
      simp only [crcLoop, if_neg hne, hr]
      exact ih _ _ (by omega)

/-- With a 5-byte source file and `segment_len = 3`, the very first
`state_machine()` call after `start_transaction` enters the CRC procedure
and exhausts any amount of loop fuel (the Python implementation loops
forever). -/
lemma sm_size5_seg3_diverges (crc : CrcDigest) (fuel : Nat) :
    (startedWith 3 false).state_machine crc (fsWith [1, 2, 3, 4, 5]) fuel
      = Except.error SourceError.loopFuelExhausted := by
  have hk : crcLoop [1, 2, 3, 4, 5] 5 3 fuel 0 [] = none :=
    crcLoop_size5_seg3_diverges _ fuel 0 [] (Or.inl rfl)
  simp [SourceHandler.state_machine, startedWith, SourceHandler.start_transaction,
    SourceHandler.mk0, SourceHandler.setStep, SourceHandler.transaction_start,
    SourceHandler.get_next_transfer_seq_num, SeqProvider.get_and_increment,
    SourceHandler.calc_cfdp_file_crc, SourceHandler.calc_crc_for_file_crcmod,
    TransferFieldWrapper.mk0, setupTransmissionMode, fsWith, putReq, remoteCfg,
    localCfg, prov8, indAllOn, FileParams.empty, PduConfig.empty, hk]

/-- Claim C2 (refuted, code bug): driving the started handler is claimed
to emit `Metadata · FileData* · EOF` covering `[0, file_size)`; for a
5-byte file with `segment_len = 3` the modulo in the read-length
computation makes the CRC `while` loop diverge (part one: no fuel ever
finishes it), so the first `state_machine()` call never returns and the
driving loop emits no PDU at all, for any loop fuel and any number of
driving rounds (part two). -/
theorem C2_pdu_sequence_never_produced_for_5_byte_file :
    (∀ fuel acc, crcLoop [1, 2, 3, 4, 5] 5 3 fuel 0 acc = none)
    ∧ ∀ (crc : CrcDigest) (crcFuel rounds : Nat),
        driveSource crc (fsWith [1, 2, 3, 4, 5]) crcFuel (rounds + 1)
          (startedWith 3 false)
        = Except.error SourceError.loopFuelExhausted := by
  constructor
  · intro fuel acc
    exact crcLoop_size5_seg3_diverges _ fuel 0 acc (Or.inl rfl)
  · intro crc crcFuel rounds
    have hsm := sm_size5_seg3_diverges crc crcFuel
    simp only [driveSource]
    rw [if_neg (by decide), hsm]

lemma get_next_seq_states {h h' : SourceHandler} {f : UnsignedByteField}
    (he : h.get_next_transfer_seq_num = Except.ok (h', f)) :
    h'.states = h.states := by
  unfold SourceHandler.get_next_transfer_seq_num SeqProvider.get_and_increment at he
  split at he
  rename_i x n prov hpair
  rw [Prod.mk.injEq] at hpair
  obtain ⟨hn, hprov⟩ := hpair
  subst hn
  subst hprov
  dsimp only at he
  split at he
  · simp_all
  · split at he
    · rw [Except.ok.injEq, Prod.mk.injEq] at he
      obtain ⟨hh, _⟩ := he
      subst hh
      rfl
    · simp_all

lemma transaction_start_states {fs : Filestore} {r : PutRequestCfg}
    {h h' : SourceHandler}
    (he : h.transaction_start fs r = Except.ok h') :
    h'.states = h.states := by
  unfold SourceHandler.transaction_start at he
  split at he
  · simp_all
  · try dsimp only at he
    try simp only [] at he
    split at he
    · simp_all
    · try dsimp only at he
      try simp only [] at he
      split at he
      · simp_all
      · rename_i heq
        have h2 := get_next_seq_states heq
        rw [Except.ok.injEq] at he
        subst he
        simp_all

lemma prepare_metadata_states {r : PutRequestCfg} {h h' : SourceHandler}
    (he : h.prepare_metadata_pdu r = Except.ok h') :
    h'.states = h.states := by
  unfold SourceHandler.prepare_metadata_pdu at he
  split at he
  · simp_all
  · split at he
    · simp_all
    · split at he
      · simp_all
      · try dsimp only at he
        try simp only [] at he
        rw [Except.ok.injEq] at he
        subst he
        rfl

lemma prepare_eof_states {h h' : SourceHandler}
    (he : h.prepare_eof_pdu = Except.ok h') :
    h'.states = h.states := by
  unfold SourceHandler.prepare_eof_pdu at he
  split at he
  · simp_all
  · rw [Except.ok.injEq] at he
    subst he
    rfl

lemma prepare_fd_states {fs : Filestore} {r : PutRequestCfg}
    {h h' : SourceHandler} {b : Bool}
    (he : h.prepare_next_file_data_pdu fs r = Except.ok (h', b)) :
    h'.states = h.states := by
  unfold SourceHandler.prepare_next_file_data_pdu at he
  split at he
  · simp_all
  · split at he
    · simp_all
    · split at he
      · simp_all
      · split at he
        · simp_all
        · try dsimp only at he
          try simp only [] at he
          split at he
          · simp_all
          · rename_i heq
            have h2 := get_next_seq_states heq
            rw [Except.ok.injEq, Prod.mk.injEq] at he
            obtain ⟨hh, _⟩ := he
            subst hh
            simp_all

lemma state_machine_ok_inv {crc : CrcDigest} {fs : Filestore} {fuel : Nat}
    {h h' : SourceHandler}
    (he : h.state_machine crc fs fuel = Except.ok h')
    (hinv : h.states.state = CfdpStates.IDLE →
      h.states.step = SourceTransactionStep.IDLE) :
    h'.states.state = CfdpStates.IDLE →
    h'.states.step = SourceTransactionStep.IDLE := by
  unfold SourceHandler.state_machine at he
  split at he
  · rw [Except.ok.injEq] at he; subst he; exact hinv
  · split at he
    · rename_i hnotidle hbusy
      split at he
      · simp_all
      · rename_i put_req
        try dsimp only at he
        try simp only [] at he
        cases hstep : h.states.step
        all_goals simp only [hstep, setStep_states_step, setStep_states_state,
          setStep_params, reduceIte, reduceCtorEq] at he
        case IDLE =>
          split at he
          · exact Except.noConfusion he
          · rename_i h2 heq
            split at heq
            · exact Except.noConfusion heq
            · rename_i h3 heq2
              rw [Except.ok.injEq] at heq
              subst heq
              have hts := transaction_start_states heq2
              simp only [setStep_states_step, setStep_states_state,
                setStep_params, reduceIte] at he
              split at he
              · exact Except.noConfusion he
              · rename_i h4 heq3
                split at heq3
                · rw [Except.ok.injEq] at heq3
                  subst heq3
                  simp only [setStep_states_step, reduceIte] at he
                  split at he
                  · exact Except.noConfusion he
                  · rename_i h5 heq4
                    rw [Except.ok.injEq] at he
                    subst he
                    have hps := prepare_metadata_states heq4
                    intro hI
                    simp only [setPacketReady_states_state] at hI
                    simp_all
                · split at heq3
                  · exact Except.noConfusion heq3
                  · split at heq3
                    · exact Except.noConfusion heq3
                    · rename_i digest heq5
                      rw [Except.ok.injEq] at heq3
                      subst heq3
                      simp only [setStep_states_step, reduceIte] at he
                      split at he
                      · exact Except.noConfusion he
                      · rename_i h5 heq4
                        rw [Except.ok.injEq] at he
                        subst he
                        have hps := prepare_metadata_states heq4
                        intro hI
                        simp only [setPacketReady_states_state] at hI
                        simp_all
        case TRANSACTION_START =>
          split at he
          · exact Except.noConfusion he
          · rename_i h2 heq
            split at heq
            · exact Except.noConfusion heq
            · rename_i h3 heq2
              rw [Except.ok.injEq] at heq
              subst heq
              have hts := transaction_start_states heq2
              simp only [setStep_states_step, setStep_states_state,
                setStep_params, reduceIte] at he
              split at he
              · exact Except.noConfusion he
              · rename_i h4 heq3
                split at heq3
                · rw [Except.ok.injEq] at heq3
                  subst heq3
                  simp only [setStep_states_step, reduceIte] at he
                  split at he
                  · exact Except.noConfusion he
                  · rename_i h5 heq4
                    rw [Except.ok.injEq] at he
                    subst he
                    have hps := prepare_metadata_states heq4
                    intro hI
                    simp only [setPacketReady_states_state] at hI
                    simp_all
                · split at heq3
                  · exact Except.noConfusion heq3
                  · split at heq3
                    · exact Except.noConfusion heq3
                    · rename_i digest heq5
                      rw [Except.ok.injEq] at heq3
                      subst heq3
                      simp only [setStep_states_step, reduceIte] at he
                      split at he
                      · exact Except.noConfusion he
                      · rename_i h5 heq4
                        rw [Except.ok.injEq] at he
                        subst he
                        have hps := prepare_metadata_states heq4
                        intro hI
                        simp only [setPacketReady_states_state] at hI
                        simp_all
        case CRC_PROCEDURE =>
          split at he
          · exact Except.noConfusion he
          · rename_i h4 heq3
            split at heq3
            · rw [Except.ok.injEq] at heq3
              subst heq3
              simp only [setStep_states_step, reduceIte] at he
              split at he
              · exact Except.noConfusion he
              · rename_i h5 heq4
                rw [Except.ok.injEq] at he
                subst he
                have hps := prepare_metadata_states heq4
                intro hI
                simp only [setPacketReady_states_state] at hI
                simp_all
            · split at heq3
              · exact Except.noConfusion heq3
              · split at heq3
                · exact Except.noConfusion heq3
                · rename_i digest heq5
                  rw [Except.ok.injEq] at heq3
                  subst heq3
                  simp only [setStep_states_step, reduceIte] at he
                  split at he
                  · exact Except.noConfusion he
                  · rename_i h5 heq4
                    rw [Except.ok.injEq] at he
                    subst he
                    have hps := prepare_metadata_states heq4
                    intro hI
                    simp only [setPacketReady_states_state] at hI
                    simp_all
        case SENDING_METADATA =>
          split at he
          · exact Except.noConfusion he
          · rename_i h5 heq4
            rw [Except.ok.injEq] at he
            subst he
            have hps := prepare_metadata_states heq4
            intro hI
            simp only [setPacketReady_states_state] at hI
            simp_all
        case SENDING_FILE_DATA =>
          split at he
          · exact Except.noConfusion he
          · rename_i h5 heq
            rw [Except.ok.injEq] at he
            subst he
            split at heq
            · exact Except.noConfusion heq
            · rename_i h6 heq2
              rw [Except.ok.injEq, Prod.mk.injEq] at heq
              obtain ⟨hh, hb⟩ := heq
              subst hh
              have hps := prepare_fd_states heq2
              intro hI
              simp only [setPacketReady_states_state] at hI
              simp_all
            · rename_i h6 heq2
              rw [Except.ok.injEq, Prod.mk.injEq] at heq
              simp at heq
          · rename_i h5 heq
            split at heq
            · exact Except.noConfusion heq
            · rename_i h6 heq2
              rw [Except.ok.injEq, Prod.mk.injEq] at heq
              simp at heq
            · rename_i h6 heq2
              rw [Except.ok.injEq, Prod.mk.injEq] at heq
              obtain ⟨hh, hb⟩ := heq
              subst hh
              have hps := prepare_fd_states heq2
              simp only [setStep_states_step, reduceIte] at he
              split at he
              · exact Except.noConfusion he
              · rename_i h7 heq3
                rw [Except.ok.injEq] at he
                subst he
                have hes := prepare_eof_states heq3
                intro hI
                simp only [setPacketReady_states_state] at hI
                simp_all
        case SENDING_EOF =>
          split at he
          · exact Except.noConfusion he
          · rename_i h7 heq3
            rw [Except.ok.injEq] at he
            subst he
            have hes := prepare_eof_states heq3
            intro hI
            simp only [setPacketReady_states_state] at hI
            simp_all
        case NOTICE_OF_COMPLETION =>
          split at he
          · exact Except.noConfusion he
          · rename_i remote hrem
            split at he
            · split at he
              · exact Except.noConfusion he
              · rw [Except.ok.injEq] at he
                subst he
                intro hI
                simp_all
            · rw [Except.ok.injEq] at he
              subst he
              intro hI
              simp
    · rw [Except.ok.injEq] at he; subst he; exact hinv

lemma start_transaction_inv {req : PutRequestCfg} {remote : RemoteEntityCfg}
    {h : SourceHandler}
    (hinv : h.states.state = CfdpStates.IDLE →
      h.states.step = SourceTransactionStep.IDLE) :
    (h.start_transaction req remote).1.states.state = CfdpStates.IDLE →
    (h.start_transaction req remote).1.states.step
      = SourceTransactionStep.IDLE := by
  unfold SourceHandler.start_transaction
  split
  · exact hinv
  · cases hmode : setupTransmissionMode req remote <;> simp [hmode]

lemma advance_fsm_ok_inv {h h' : SourceHandler}
    (he : h.advance_fsm = Except.ok h')
    (hinv : h.states.state = CfdpStates.IDLE →
      h.states.step = SourceTransactionStep.IDLE) :
    h'.states.state = CfdpStates.IDLE →
    h'.states.step = SourceTransactionStep.IDLE := by
  unfold SourceHandler.advance_fsm at he
  split at he
  · exact Except.noConfusion he
  · split at he
    · rename_i hbusy
      split at he
      · rw [Except.ok.injEq] at he
        subst he
        intro hI
        simp_all
      · split at he
        · split at he <;>
            (rw [Except.ok.injEq] at he; subst he; intro hI; simp_all)
        · split at he <;>
            (rw [Except.ok.injEq] at he; subst he; intro hI; simp_all)
    · rw [Except.ok.injEq] at he
      subst he
      exact hinv

/-- Claim C6 as amended: for every reachable state of the source handler
only the forward direction of the claimed equivalence holds — whenever
`state == IDLE`, also `step == IDLE`. The converse direction fails exactly
between a successful `start_transaction` (which sets `state` to a BUSY
value but leaves `step` at IDLE) and the first `state_machine()` call. -/
theorem C6_state_idle_implies_step_idle (h : SourceHandler)
    (hr : Reachable h) :
    h.states.state = CfdpStates.IDLE →
    h.states.step = SourceTransactionStep.IDLE := by
  induction hr with
  | init cfg prov => intro _; rfl
  | start h req remote _ ih => exact start_transaction_inv ih
  | step h h' crc fs fuel _ he ih => exact state_machine_ok_inv he ih
  | confirm h _ ih => exact ih
  | advance h h' _ he ih => exact advance_fsm_ok_inv he ih
  | pass h h' pdu _ he ih =>
    unfold SourceHandler.pass_packet at he
    split at he
    · exact Except.noConfusion he
    · split at he
      · exact Except.noConfusion he
      · rw [Except.ok.injEq] at he
        subst he
        exact ih
  | reset h _ ih => intro _; rfl

/-- Witness for C6_state_idle_implies_step_idle at the freshly constructed
handler, which is reachable and IDLE. -/
theorem C6_state_idle_implies_step_idle_witness :
    (SourceHandler.mk0 localCfg prov8).states.step
      = SourceTransactionStep.IDLE :=
  C6_state_idle_implies_step_idle (SourceHandler.mk0 localCfg prov8)
    (Reachable.init localCfg prov8) rfl

/-- Claim C9 (confirmed): for every Class-1 transaction whose source file
is empty (size 0), whatever the checksum algorithm and digest function,
the entity configuration, the put request, the remote configuration and
the provider counter (for any valid width 8, 16 or 32), driving the
started handler emits exactly one Metadata PDU followed by one EOF PDU,
no File-Data PDU, and the EOF carries NULL_CHECKSUM_U32 and file size 0. -/
theorem C9_empty_file_emits_metadata_and_null_checksum_eof (crc : CrcDigest) (fs : Filestore)
    (cfg : LocalEntityCfg) (prov : SeqProvider) (req : PutRequestCfg)
    (remote : RemoteEntityCfg) (crcFuel : Nat) (h1 : SourceHandler)
    (hw : prov.max_bit_width ∈ [8, 16, 32])
    (hc : prov.counter < 2 ^ prov.max_bit_width)
    (hmode : setupTransmissionMode req remote
      = TransmissionModes.UNACKNOWLEDGED)
    (hfile : fs req.source_file = some [])
    (hstart : (SourceHandler.mk0 cfg prov).start_transaction req remote
      = (h1, true)) :
    ∃ (h2 : SourceHandler) (mconf econf : PduConfig)
      (mparams : MetadataParams),
      driveSource crc fs crcFuel 4 h1
        = Except.ok (h2, [Pdu.metadata mconf mparams,
            Pdu.eof econf NULL_CHECKSUM_U32 0 ConditionCode.NO_ERROR])
      ∧ mparams.file_size = 0 := by
  unfold SourceHandler.start_transaction at hstart
  rw [hmode] at hstart
  simp only [SourceHandler.mk0, TransferFieldWrapper.mk0, FileParams.empty,
    PduConfig.empty, ne_eq, reduceCtorEq, not_true, not_false_eq_true,
    reduceIte, Prod.mk.injEq, and_true] at hstart
  subst hstart
  obtain ⟨w, c⟩ := prov
  simp only [List.mem_cons, List.not_mem_nil, or_false] at hw
  have hp8 : (2 : Nat) ^ 8 = 256 := by norm_num
  have hp16 : (2 : Nat) ^ 16 = 65536 := by norm_num
  have hp32 : (2 : Nat) ^ 32 = 4294967296 := by norm_num
  rcases hw with hw | hw | hw
  all_goals subst hw
  all_goals norm_num at hc
  all_goals simp [hp8, hp16, hp32, driveSource, SourceHandler.state_machine,
    SourceHandler.transaction_start,
    SourceHandler.get_next_transfer_seq_num, SeqProvider.get_and_increment,
    SourceHandler.prepare_metadata_pdu,
    SourceHandler.prepare_next_file_data_pdu,
    SourceHandler.prepare_eof_pdu, SourceHandler.setStep,
    SourceHandler.setPacketReady, SourceHandler.setCrc32,
    SourceHandler.addIndication,
    SourceHandler.confirm_packet_sent_advance_fsm,
    SourceHandler.confirm_packet_sent, SourceHandler.advance_fsm,
    hfile, hc]
  all_goals exact ⟨_, _, _, _, ⟨rfl, ⟨rfl, rfl⟩, rfl⟩, rfl⟩

/-- Witness for C9 at the concrete empty-file fixture. -/
theorem C9_empty_file_emits_metadata_and_null_checksum_eof_witness :
    ∃ (h2 : SourceHandler) (mconf econf : PduConfig)
      (mparams : MetadataParams),
      driveSource crcId (fsWith []) 5 4 (startedWith 4 false)
        = Except.ok (h2, [Pdu.metadata mconf mparams,
            Pdu.eof econf NULL_CHECKSUM_U32 0 ConditionCode.NO_ERROR])
      ∧ mparams.file_size = 0 :=
  C9_empty_file_emits_metadata_and_null_checksum_eof crcId (fsWith [])
    localCfg prov8 putReq (remoteCfg 4 false) 5 (startedWith 4 false)
    (by decide) (by decide) (by decide) (by rfl) (by rfl)

end Tmtccmd
